import Mathlib

/-!
Verification of the yeshivah raffle ticket system.

This file is a shallow embedding of the repository's core logic:

* `src/src/db/schema.ts` — the `tickets` table (structure `Ticket`);
* `src/src/lib/cardpointe.ts` — `isTransactionApproved`, `formatAmountToCents`,
  the request/response shapes of the CardPointe payment capability;
* `src/app/api/raffle/init/route.ts` — pool initialization (`initRoute`);
* `src/app/api/raffle/tickets/route.ts` — the ticket board read (`listTickets`);
* `src/app/api/raffle/enter/route.ts` — the raffle entry protocol
  (`enterRaffle`): IP gate, zod validation, sold-out precheck, random
  allocation under `FOR UPDATE SKIP LOCKED`, payment, and the
  finalize/rollback resolution.

The database table is modelled as a `List Ticket`; a single request is
modelled sequentially.  Nondeterminism of `ORDER BY RANDOM() ... SKIP LOCKED`
is modelled by an arbitrary index `pickIdx` into the available rows (an
out-of-range index plays the role of "every available row is transiently
locked by a competitor", which the route maps to its allocation-failure
response).  The payment capability and the abuse-throttle capability are
external collaborators and enter as parameters: `config`/`pay` for
CardPointe (a thrown configuration, network or protocol error is
`Except.error`), `ipBlocked` for `isIpBlocked`, and `recordBlocks` for the
`blocked` flag returned by `recordFailedAttempt`.
-/

/-- `ticket_status` enum of `schema.ts`: `available`, `reserved`, `sold`. -/
inductive TicketStatus
  | available
  | reserved
  | sold
  deriving DecidableEq

/-- A row of the `tickets` table (`schema.ts`).  Timestamps are modelled as
natural numbers.  `transactionId` is the column `stripe_payment_intent_id`. -/
structure Ticket where
  id : Nat
  ticketNumber : Nat
  status : TicketStatus
  buyerName : Option String := none
  buyerEmail : Option String := none
  buyerPhone : Option String := none
  amountPaid : Option Nat := none
  transactionId : Option String := none
  reservedAt : Option Nat := none
  purchasedAt : Option Nat := none
  createdAt : Nat := 0
  deriving DecidableEq

/-- The request body consumed by `enterRaffleSchema` in
`src/app/api/raffle/enter/route.ts`. -/
structure RequestBody where
  name : String
  email : String
  phone : String
  zip : String
  cardNumber : String
  expMonth : String
  expYear : String
  cvv : String
  deriving DecidableEq

/-- The zod schema `enterRaffleSchema`: name min 1, email well-formed,
phone min 10, zip min 5 and max 5, cardNumber min 13, expMonth length 2,
expYear length 4, cvv min 3 and max 4.  The e-mail well-formedness test is
internal to the zod library (not repository code), so it is a parameter
`emailOk`. -/
def enterRaffleSchemaCheck (emailOk : String → Bool) (b : RequestBody) : Bool :=
  decide (1 ≤ b.name.length) && emailOk b.email &&
  decide (10 ≤ b.phone.length) &&
  decide (5 ≤ b.zip.length) && decide (b.zip.length ≤ 5) &&
  decide (13 ≤ b.cardNumber.length) &&
  decide (b.expMonth.length = 2) && decide (b.expYear.length = 4) &&
  decide (3 ≤ b.cvv.length) && decide (b.cvv.length ≤ 4)

/-- The fields of `CardPointeAuthRequest` (`cardpointe.ts`) that the model
tracks (the `userfields` metadata block is omitted: it is never read). -/
structure CardPointeAuthRequest where
  merchid : String
  account : String
  expiry : String
  amount : String
  currency : String
  capture : String
  cvv2 : String
  email : String
  name : String
  postal : String
  deriving DecidableEq

/-- The fields of `CardPointeAuthResponse` (`cardpointe.ts`) that the route
reads: `respstat` (A=Approved, B=Retry, C=Declined), `retref`, `resptext`. -/
structure CardPointeAuthResponse where
  respstat : String
  retref : String
  resptext : String
  deriving DecidableEq

/-- `isTransactionApproved` from `cardpointe.ts`:
`response.respstat === 'A'`. -/
def isTransactionApproved (response : CardPointeAuthResponse) : Bool :=
  response.respstat == "A"

/-- JavaScript `Math.round`: round half toward positive infinity. -/
def mathRound (x : ℚ) : ℤ := ⌊x + 1 / 2⌋

/-- `formatAmountToCents` from `cardpointe.ts`:
`Math.round(dollarAmount * 100).toString()`. -/
def formatAmountToCents (dollarAmount : ℚ) : String :=
  toString (mathRound (dollarAmount * 100))

/-- The part of `getCardPointeConfig` that the raffle route observes: the
merchant id placed into the authorization request.  (Site, username and
password only feed the URL and auth header of the network layer.) -/
structure CardPointeConfig where
  merchantId : String
  deriving DecidableEq

/-- Outcome of the payment call: `Except.error` models any thrown error
(network failure, non-ok HTTP status); `Except.ok` a parsed response. -/
abbrev PaymentOutcome := Except String CardPointeAuthResponse

/-- The reserve update of the allocation transaction (route.ts step 2):
status to `reserved`, buyer identity populated, `reservedAt` set. -/
def reserveTicket (body : RequestBody) (now : Nat) (t : Ticket) : Ticket :=
  { t with
    status := .reserved
    buyerName := some body.name
    buyerEmail := some body.email
    buyerPhone := some body.phone
    reservedAt := some now }

/-- The sold update (route.ts step 4, approved branch): status to `sold`,
`amountPaid` set to the assigned ticket number, `transactionId` to the
retrieval reference, `purchasedAt` set. -/
def markSold (assigned : Ticket) (retref : String) (soldNow : Nat) (t : Ticket) : Ticket :=
  { t with
    status := .sold
    amountPaid := some assigned.ticketNumber
    transactionId := some retref
    purchasedAt := some soldNow }

/-- The rollback update (route.ts catch of step 3): status back to
`available`, buyer identity and `reservedAt` cleared. -/
def releaseTicket (t : Ticket) : Ticket :=
  { t with
    status := .available
    buyerName := none
    buyerEmail := none
    buyerPhone := none
    reservedAt := none }

/-- `UPDATE tickets SET ... WHERE id = tid`, as a map over the table. -/
def updateById (tid : Nat) (f : Ticket → Ticket) (pool : List Ticket) : List Ticket :=
  pool.map fun t => if t.id = tid then f t else t

/-- `SELECT count(*) FROM tickets WHERE status = 'available'`
(the advisory precheck of route.ts step 1). -/
def countAvailable (pool : List Ticket) : Nat :=
  pool.countP fun t => t.status == .available

/-- `SELECT * FROM tickets WHERE status = 'available' ORDER BY RANDOM()
LIMIT 1 FOR UPDATE SKIP LOCKED`: one available row, chosen
nondeterministically (here: by the ambient index `pickIdx`); `none` when no
available row is lockable. -/
def pickAvailable (pool : List Ticket) (pickIdx : Nat) : Option Ticket :=
  (pool.filter fun t => t.status == .available).get? pickIdx

/-- The result of a raffle-entry request, abstracted from the JSON/HTTP
wire format of route.ts.  `paymentFailed` carries the `blocked` flag of
`recordFailedAttempt`: when it is `true` the route answers with the
"access temporarily restricted" message and status 403 instead of the
"card was not charged" message and status 400 — both arise only from the
payment-failure handler. -/
inductive EnterResult
  | blocked (msg : String)
  | validationError (msg : String)
  | soldOut
  | allocationFailed
  | paymentFailed (nowBlocked : Bool) (msg : String)
  | success (ticketNumber : Nat) (amountCharged : Nat) (transactionId : String)
  deriving DecidableEq

/-- What one `POST /api/raffle/enter` leaves behind: the response, the new
table state, and the authorization request sent to the payment capability
(`none` when no payment request was ever constructed). -/
structure EnterOutcome where
  result : EnterResult
  pool : List Ticket
  sentRequest : Option CardPointeAuthRequest
  deriving DecidableEq

/-- Step 3 of route.ts: build the CardPointe request and invoke the
capability.  A missing configuration throws inside `getCardPointeConfig`
before any request exists.  `expiry` is `expMonth + expYear.slice(-2)`;
`amount` is `formatAmountToCents(assignedTicket.ticketNumber)`. -/
def paymentStep (config : Option CardPointeConfig)
    (pay : CardPointeAuthRequest → PaymentOutcome)
    (body : RequestBody) (assigned : Ticket) :
    PaymentOutcome × Option CardPointeAuthRequest :=
  match config with
  | none => (.error "CardPointe configuration is not defined in environment variables", none)
  | some cfg =>
    let req : CardPointeAuthRequest :=
      { merchid := cfg.merchantId
        account := body.cardNumber
        expiry := body.expMonth ++ body.expYear.takeRight 2
        amount := formatAmountToCents (assigned.ticketNumber : ℚ)
        currency := "USD"
        capture := "y"
        cvv2 := body.cvv
        email := body.email
        name := body.name
        postal := body.zip }
    (pay req, some req)

/-- Steps 3 and 4 of route.ts, entered with the reserved ticket in hand:
on an approved response mark the ticket sold and answer success; on any
thrown error or non-approved response release the ticket and answer the
payment-failure response (with the throttle outcome `recordBlocks`). -/
def finalizePayment (body : RequestBody) (config : Option CardPointeConfig)
    (pay : CardPointeAuthRequest → PaymentOutcome) (recordBlocks : Bool)
    (now : Nat) (chosen : Ticket) (pool : List Ticket) : EnterOutcome :=
  let assigned := reserveTicket body now chosen
  let pool1 := updateById chosen.id (reserveTicket body now) pool
  match paymentStep config pay body assigned with
  | (.error msg, sent) =>
    ⟨.paymentFailed recordBlocks (msg ++ ". Your card was not charged. Please try again."),
     updateById assigned.id releaseTicket pool1, sent⟩
  | (.ok resp, sent) =>
    if isTransactionApproved resp then
      ⟨.success assigned.ticketNumber assigned.ticketNumber resp.retref,
       updateById assigned.id (markSold assigned resp.retref now) pool1, sent⟩
    else
      ⟨.paymentFailed recordBlocks (resp.resptext ++ ". Your card was not charged. Please try again."),
       updateById assigned.id releaseTicket pool1, sent⟩

/-- `POST /api/raffle/enter` (`src/app/api/raffle/enter/route.ts`), one
request run sequentially: IP gate, zod validation, availability precheck,
locked random allocation, payment, resolution. -/
def enterRaffle (ipBlocked : Bool) (emailOk : String → Bool) (body : RequestBody)
    (pickIdx : Nat) (config : Option CardPointeConfig)
    (pay : CardPointeAuthRequest → PaymentOutcome) (recordBlocks : Bool)
    (now : Nat) (pool : List Ticket) : EnterOutcome :=
  if ipBlocked then
    ⟨.blocked "Too many failed attempts. Please try again later or contact support.",
     pool, none⟩
  else if ¬ enterRaffleSchemaCheck emailOk body then
    ⟨.validationError "Validation error", pool, none⟩
  else if countAvailable pool = 0 then
    ⟨.soldOut, pool, none⟩
  else
    match pickAvailable pool pickIdx with
    | none => ⟨.allocationFailed, pool, none⟩
    | some chosen => finalizePayment body config pay recordBlocks now chosen pool

/-- The response of `POST /api/raffle/init`, abstracted as the spec's
`initialize(size) -> { alreadyInitialized, count }`. -/
structure InitResponse where
  alreadyInitialized : Bool
  count : Nat
  deriving DecidableEq

/-- `POST /api/raffle/init` (`src/app/api/raffle/init/route.ts`): when any
ticket exists, report already-initialized with the existing count and
change nothing; otherwise insert 100 rows numbered 1..100, all
`available`.  `serial` primary-key ids are modelled as 1..100. -/
def initRoute (pool : List Ticket) (now : Nat) : InitResponse × List Ticket :=
  if 0 < pool.length then
    ({ alreadyInitialized := true, count := pool.length }, pool)
  else
    ({ alreadyInitialized := false, count := 100 },
     (List.range 100).map fun i =>
       { id := i + 1, ticketNumber := i + 1, status := .available, createdAt := now })

/-- The aggregate block of `GET /api/raffle/tickets`. -/
structure TicketStats where
  total : Nat
  sold : Nat
  reserved : Nat
  available : Nat
  deriving DecidableEq

/-- Ordering of the board rows: ascending ticket number. -/
def byNumberLE (a b : Nat × TicketStatus) : Prop := a.1 ≤ b.1

instance : DecidableRel byNumberLE := fun a b => Nat.decLe a.1 b.1

instance : IsTotal (Nat × TicketStatus) byNumberLE :=
  ⟨fun a b => Nat.le_total a.1 b.1⟩

instance : IsTrans (Nat × TicketStatus) byNumberLE :=
  ⟨fun _ _ _ h h2 => Nat.le_trans h h2⟩

/-- `GET /api/raffle/tickets` (`src/app/api/raffle/tickets/route.ts`):
every `(ticketNumber, status)` pair ordered by `ticket_number` (the SQL
`ORDER BY` modelled as a sort), and the stats block — `sold`, `reserved`
and `available` are the grouped counts; `total` is the literal `100` of
the source. -/
def listTickets (pool : List Ticket) : List (Nat × TicketStatus) × TicketStats :=
  ((pool.map fun t => (t.ticketNumber, t.status)).insertionSort byNumberLE,
   { total := 100
     sold := pool.countP fun t => t.status == .sold
     reserved := pool.countP fun t => t.status == .reserved
     available := pool.countP fun t => t.status == .available })

/-- A payment outcome that is not a confirmed approval: a thrown error or
a response whose `respstat` is not `A`.  Every such outcome reaches the
rollback handler of route.ts. -/
def paymentOutcomeFails : PaymentOutcome → Bool
  | .error _ => true
  | .ok resp => ! isTransactionApproved resp

/-- Charge-equals-number invariant of the data model: every sold ticket
records `amountPaid` equal to its own `ticketNumber`. -/
def chargeInv (pool : List Ticket) : Prop :=
  ∀ t ∈ pool, t.status = .sold → t.amountPaid = some t.ticketNumber

/-- The net effect on the chosen row of reserving and then (on approval)
marking sold, as one record update. -/
def soldUpdate (body : RequestBody) (now : Nat) (num : Nat) (retref : String)
    (t : Ticket) : Ticket :=
  { t with
    status := .sold
    buyerName := some body.name
    buyerEmail := some body.email
    buyerPhone := some body.phone
    reservedAt := some now
    amountPaid := some num
    transactionId := some retref
    purchasedAt := some now }

lemma reserveTicket_id (body : RequestBody) (now : Nat) (t : Ticket) :
    (reserveTicket body now t).id = t.id := rfl

lemma releaseTicket_reserveTicket (body : RequestBody) (now : Nat) (t : Ticket) :
    releaseTicket (reserveTicket body now t) = releaseTicket t := rfl

lemma updateById_updateById {tid : Nat} {f g : Ticket → Ticket}
    (hf : ∀ t : Ticket, (f t).id = t.id) (pool : List Ticket) :
    updateById tid g (updateById tid f pool) = updateById tid (fun t => g (f t)) pool := by
  induction pool with
  | nil => rfl
  | cons t rest ih =>
    simp only [updateById, List.map_cons] at *
    by_cases h : t.id = tid
    · simp [h, hf t, ih]
    · simp [h, ih]

lemma updateById_length (tid : Nat) (f : Ticket → Ticket) (pool : List Ticket) :
    (updateById tid f pool).length = pool.length := by
  simp [updateById]

lemma mem_updateById {tid : Nat} {f : Ticket → Ticket} {pool : List Ticket} {t' : Ticket} :
    t' ∈ updateById tid f pool ↔ ∃ t ∈ pool, t' = if t.id = tid then f t else t := by
  simp only [updateById, List.mem_map, eq_comm]

lemma mem_updateById_of_ne {tid : Nat} {f : Ticket → Ticket} {pool : List Ticket} {t : Ticket}
    (ht : t ∈ pool) (h : t.id ≠ tid) : t ∈ updateById tid f pool := by
  have he : (if t.id = tid then f t else t) = t := if_neg h
  exact he ▸ List.mem_map_of_mem _ ht

lemma countAvailable_ne_zero_of_pick {pool : List Ticket} {pickIdx : Nat} {chosen : Ticket}
    (h : pickAvailable pool pickIdx = some chosen) : countAvailable pool ≠ 0 := by
  unfold pickAvailable at h
  unfold countAvailable
  rw [List.countP_eq_length_filter]
  intro h0
  rw [List.length_eq_zero] at h0
  rw [h0] at h
  simp at h

lemma pickAvailable_mem {pool : List Ticket} {pickIdx : Nat} {chosen : Ticket}
    (h : pickAvailable pool pickIdx = some chosen) :
    chosen ∈ pool ∧ chosen.status = .available := by
  unfold pickAvailable at h
  have hm := List.get?_mem h
  rw [List.mem_filter] at hm
  refine ⟨hm.1, ?_⟩
  have := hm.2
  simpa using this

lemma enterRaffle_alloc {emailOk : String → Bool} {body : RequestBody} {pickIdx : Nat}
    {config : Option CardPointeConfig} {pay : CardPointeAuthRequest → PaymentOutcome}
    {recordBlocks : Bool} {now : Nat} {pool : List Ticket} {chosen : Ticket}
    (hv : enterRaffleSchemaCheck emailOk body = true)
    (hpick : pickAvailable pool pickIdx = some chosen) :
    enterRaffle false emailOk body pickIdx config pay recordBlocks now pool =
      finalizePayment body config pay recordBlocks now chosen pool := by
  simp [enterRaffle, hv, hpick, countAvailable_ne_zero_of_pick hpick]

lemma finalizePayment_eq (body : RequestBody) (config : Option CardPointeConfig)
    (pay : CardPointeAuthRequest → PaymentOutcome) (recordBlocks : Bool)
    (now : Nat) (chosen : Ticket) (pool : List Ticket) :
    finalizePayment body config pay recordBlocks now chosen pool =
      match paymentStep config pay body (reserveTicket body now chosen) with
      | (.error msg, sent) =>
        ⟨.paymentFailed recordBlocks (msg ++ ". Your card was not charged. Please try again."),
         updateById chosen.id releaseTicket pool, sent⟩
      | (.ok resp, sent) =>
        if isTransactionApproved resp then
          ⟨.success chosen.ticketNumber chosen.ticketNumber resp.retref,
           updateById chosen.id (soldUpdate body now chosen.ticketNumber resp.retref) pool, sent⟩
        else
          ⟨.paymentFailed recordBlocks (resp.resptext ++ ". Your card was not charged. Please try again."),
           updateById chosen.id releaseTicket pool, sent⟩ := by
  simp only [finalizePayment]
  rcases hps : paymentStep config pay body (reserveTicket body now chosen) with ⟨outcome, sent⟩
  cases outcome with
  | error msg =>
    simp only [hps, reserveTicket_id]
    rw [updateById_updateById (reserveTicket_id body now) pool]
    rfl
  | ok resp =>
    simp only [hps, reserveTicket_id]
    by_cases happ : isTransactionApproved resp
    · rw [if_pos happ, if_pos happ]
      rw [updateById_updateById (reserveTicket_id body now) pool]
      rfl
    · rw [if_neg happ, if_neg happ]
      rw [updateById_updateById (reserveTicket_id body now) pool]
      rfl

/-- A well-formed request body (passes every check of `enterRaffleSchema`). -/
def sampleBody : RequestBody :=
  { name := "Test Name"
    email := "test@example.com"
    phone := "0123456789"
    zip := "12345"
    cardNumber := "4111111111111"
    expMonth := "12"
    expYear := "2030"
    cvv := "123" }

/-- A malformed request body: empty name and too-short phone number. -/
def badBody : RequestBody :=
  { name := ""
    email := "test@example.com"
    phone := "123"
    zip := "12345"
    cardNumber := "4111111111111"
    expMonth := "12"
    expYear := "2030"
    cvv := "123" }

/-- E-mail predicate accepting everything (stands in for the zod regex at
concrete evaluations). -/
def allTrue : String → Bool := fun _ => true

/-- A fresh available ticket, number 1. -/
def sampleTicket : Ticket := { id := 1, ticketNumber := 1, status := .available }

/-- A sold ticket, number 1, charged 1. -/
def soldTicket : Ticket :=
  { id := 1, ticketNumber := 1, status := .sold, amountPaid := some 1 }

/-- Claim C8: for every request from a client identity reported blocked by
the abuse policy, `enterRaffle` answers the blocked failure before any
ticket work: the pool is untouched and the payment capability is never
invoked, whatever the body, pool state or other collaborators are. -/
theorem C8_blocked_before_any_ticket_work (emailOk : String → Bool) (body : RequestBody)
    (pickIdx : Nat) (config : Option CardPointeConfig)
    (pay : CardPointeAuthRequest → PaymentOutcome) (recordBlocks : Bool)
    (now : Nat) (pool : List Ticket) :
    (enterRaffle true emailOk body pickIdx config pay recordBlocks now pool).result
        = .blocked "Too many failed attempts. Please try again later or contact support." ∧
    (enterRaffle true emailOk body pickIdx config pay recordBlocks now pool).pool = pool ∧
    (enterRaffle true emailOk body pickIdx config pay recordBlocks now pool).sentRequest = none :=
  ⟨rfl, rfl, rfl⟩

/-- Claim C7: a request whose body fails the input schema is rejected with
a validation-error failure before any allocation attempt: no ticket
changes state and the payment capability is never invoked. -/
theorem C7_validation_before_allocation (emailOk : String → Bool) (body : RequestBody)
    (pickIdx : Nat) (config : Option CardPointeConfig)
    (pay : CardPointeAuthRequest → PaymentOutcome) (recordBlocks : Bool)
    (now : Nat) (pool : List Ticket)
    (hv : enterRaffleSchemaCheck emailOk body = false) :
    (enterRaffle false emailOk body pickIdx config pay recordBlocks now pool).result
        = .validationError "Validation error" ∧
    (enterRaffle false emailOk body pickIdx config pay recordBlocks now pool).pool = pool ∧
    (enterRaffle false emailOk body pickIdx config pay recordBlocks now pool).sentRequest = none := by
  simp [enterRaffle, hv]

/-- Witness for C7 at a concrete malformed body (empty name, 3-digit
phone) over a one-ticket pool. -/
theorem C7_validation_before_allocation_witness :
    (enterRaffle false allTrue badBody 0 none (fun _ => .error "e") false 0 [sampleTicket]).result
        = .validationError "Validation error" ∧
    (enterRaffle false allTrue badBody 0 none (fun _ => .error "e") false 0 [sampleTicket]).pool
        = [sampleTicket] ∧
    (enterRaffle false allTrue badBody 0 none (fun _ => .error "e") false 0 [sampleTicket]).sentRequest
        = none :=
  C7_validation_before_allocation allTrue badBody 0 none (fun _ => .error "e") false 0
    [sampleTicket] (by decide)

/-- Claim C4: pool initialization is idempotent — from an empty pool the
first call creates exactly 100 tickets, and the second call reports
already-initialized with count 100 and changes no data. -/
theorem C4_init_idempotent (now1 now2 : Nat) :
    ((initRoute [] now1).2).length = 100 ∧
    (initRoute [] now1).1.alreadyInitialized = false ∧
    (initRoute (initRoute [] now1).2 now2).1.alreadyInitialized = true ∧
    (initRoute (initRoute [] now1).2 now2).1.count = 100 ∧
    (initRoute (initRoute [] now1).2 now2).2 = (initRoute [] now1).2 := by
  simp [initRoute]

/-- The pool initialization as §4.1 of the spec words it: a size
parameter `n`, inserting rows numbered `1..n` — written only to compare
with the source-faithful `initRoute`, whose pool size is not a
parameter. -/
def specInitPool (n : Nat) (pool : List Ticket) : InitResponse × List Ticket :=
  if 0 < pool.length then
    ({ alreadyInitialized := true, count := pool.length }, pool)
  else
    ({ alreadyInitialized := false, count := n },
     (List.range n).map fun i => { id := i + 1, ticketNumber := i + 1, status := .available })

/-- Counterexample to C5 as stated: at size 50 on an empty pool the code
inserts 100 rows, not 50. -/
theorem C5_counterexample :
    ((initRoute [] 0).2).length ≠ ((specInitPool 50 []).2).length := by
  simp [initRoute, specInitPool]

/-- Claim C5 (amended): the initialization operation takes no size
argument; when the pool is empty it inserts exactly 100 tickets numbered
1..100, each `available`; when the pool is non-empty it reports
already-initialized and inserts nothing. -/
theorem C5_init_contents (pool : List Ticket) (now : Nat) :
    (pool = [] →
      ((initRoute pool now).2.map fun t => (t.ticketNumber, t.status))
          = ((List.range 100).map fun i => (i + 1, TicketStatus.available)) ∧
      (initRoute pool now).1.alreadyInitialized = false ∧
      ((initRoute pool now).2).length = 100) ∧
    (pool ≠ [] →
      (initRoute pool now).2 = pool ∧
      (initRoute pool now).1.alreadyInitialized = true ∧
      (initRoute pool now).1.count = pool.length) := by
  constructor
  · rintro rfl
    refine ⟨?_, by simp [initRoute], by simp [initRoute]⟩
    simp [initRoute, List.map_map]
  · intro h
    have hl : 0 < pool.length := List.length_pos.mpr h
    simp [initRoute, hl]

/-- Witness for C5 (amended) at the empty pool. -/
theorem C5_init_contents_witness :
    ((initRoute [] 0).2.map fun t => (t.ticketNumber, t.status))
        = ((List.range 100).map fun i => (i + 1, TicketStatus.available)) ∧
    ((initRoute [] 0).2).length = 100 :=
  ⟨((C5_init_contents [] 0).1 rfl).1, ((C5_init_contents [] 0).1 rfl).2.2⟩

/-- Counterexample to C6 as stated: on a one-ticket pool the reported
`total` is the literal 100, not the number of tickets in the pool. -/
theorem C6_counterexample :
    (listTickets [sampleTicket]).2.total ≠ ([sampleTicket] : List Ticket).length := by
  decide

/-- Claim C6 (amended): `listTickets` returns every ticket as a
`(number, state)` pair ordered by number ascending, and the `sold`,
`reserved` and `available` aggregates each equal the number of tickets in
that state; `total`, however, is the constant 100 (the fixed pool size),
not the number of tickets in the pool. -/
theorem C6_board_and_stats (pool : List Ticket) :
    List.Perm (listTickets pool).1 (pool.map fun t => (t.ticketNumber, t.status)) ∧
    List.Sorted byNumberLE (listTickets pool).1 ∧
    (listTickets pool).2.sold = (pool.filter fun t => t.status == .sold).length ∧
    (listTickets pool).2.reserved = (pool.filter fun t => t.status == .reserved).length ∧
    (listTickets pool).2.available = (pool.filter fun t => t.status == .available).length ∧
    (listTickets pool).2.total = 100 := by
  refine ⟨List.perm_insertionSort byNumberLE _, List.sorted_insertionSort byNumberLE _,
    ?_, ?_, ?_, rfl⟩
  all_goals simp [listTickets, List.countP_eq_length_filter]

/-- Claim C3: when every ticket is sold, `enterRaffle` never succeeds and
leaves every ticket unchanged; a call that passes the IP gate and input
validation is answered with the sold-out failure (the advisory precheck
finds zero available rows, so the allocation-failed answer is not even
reached). -/
theorem C3_soldout_never_succeeds (pool : List Ticket) (ipBlocked : Bool)
    (emailOk : String → Bool) (body : RequestBody) (pickIdx : Nat)
    (config : Option CardPointeConfig) (pay : CardPointeAuthRequest → PaymentOutcome)
    (recordBlocks : Bool) (now : Nat)
    (hsold : ∀ t ∈ pool, t.status = TicketStatus.sold) :
    (∀ n a tid, (enterRaffle ipBlocked emailOk body pickIdx config pay recordBlocks now pool).result
        ≠ .success n a tid) ∧
    (enterRaffle ipBlocked emailOk body pickIdx config pay recordBlocks now pool).pool = pool ∧
    (ipBlocked = false → enterRaffleSchemaCheck emailOk body = true →
      (enterRaffle ipBlocked emailOk body pickIdx config pay recordBlocks now pool).result
        = .soldOut) := by
  have hc : countAvailable pool = 0 := by
    unfold countAvailable
    rw [List.countP_eq_zero]
    intro t ht
    simp [hsold t ht]
  cases ipBlocked with
  | true =>
    refine ⟨?_, rfl, ?_⟩
    · intro n a tid h
      simp [enterRaffle] at h
    · intro h
      cases h
  | false =>
    by_cases hv : enterRaffleSchemaCheck emailOk body
    · have he : enterRaffle false emailOk body pickIdx config pay recordBlocks now pool
          = ⟨.soldOut, pool, none⟩ := by
        simp [enterRaffle, hv, hc]
      rw [he]
      exact ⟨fun n a tid h => by simp at h, rfl, fun _ _ => rfl⟩
    · have he : enterRaffle false emailOk body pickIdx config pay recordBlocks now pool
          = ⟨.validationError "Validation error", pool, none⟩ := by
        simp [enterRaffle, hv]
      rw [he]
      refine ⟨fun n a tid h => by simp at h, rfl, ?_⟩
      intro _ h2
      exact absurd h2 hv

/-- Witness for C3: an all-sold one-ticket pool, unblocked caller, valid
body — the answer is the sold-out failure and the pool is unchanged. -/
theorem C3_soldout_never_succeeds_witness :
    (enterRaffle false allTrue sampleBody 0 none (fun _ => .error "e") false 0 [soldTicket]).result
        = .soldOut ∧
    (enterRaffle false allTrue sampleBody 0 none (fun _ => .error "e") false 0 [soldTicket]).pool
        = [soldTicket] :=
  ⟨(C3_soldout_never_succeeds [soldTicket] false allTrue sampleBody 0 none (fun _ => .error "e")
      false 0 (by decide)).2.2 rfl (by decide),
   (C3_soldout_never_succeeds [soldTicket] false allTrue sampleBody 0 none (fun _ => .error "e")
      false 0 (by decide)).2.1⟩

/-- Claim C1: whenever a ticket was reserved and the payment capability
then declines or errors in any way (configuration failure, network error,
or a non-approved response), the call answers the payment-failed failure,
the affected ticket ends `available` with buyer name, e-mail, phone and
`reservedAt` all cleared, and every other ticket is unchanged (the final
pool is exactly the original with only the chosen row released). -/
theorem C1_payment_failure_releases_ticket (emailOk : String → Bool) (body : RequestBody)
    (pickIdx : Nat) (config : Option CardPointeConfig)
    (pay : CardPointeAuthRequest → PaymentOutcome) (recordBlocks : Bool) (now : Nat)
    (pool : List Ticket) (chosen : Ticket)
    (hv : enterRaffleSchemaCheck emailOk body = true)
    (hpick : pickAvailable pool pickIdx = some chosen)
    (hfail : paymentOutcomeFails
        (paymentStep config pay body (reserveTicket body now chosen)).1 = true) :
    (∃ msg, (enterRaffle false emailOk body pickIdx config pay recordBlocks now pool).result
        = .paymentFailed recordBlocks msg) ∧
    (enterRaffle false emailOk body pickIdx config pay recordBlocks now pool).pool
        = updateById chosen.id releaseTicket pool ∧
    (∀ t ∈ (enterRaffle false emailOk body pickIdx config pay recordBlocks now pool).pool,
      t.id = chosen.id →
        t.status = .available ∧ t.buyerName = none ∧ t.buyerEmail = none ∧
        t.buyerPhone = none ∧ t.reservedAt = none) ∧
    (∀ t ∈ pool, t.id ≠ chosen.id →
      t ∈ (enterRaffle false emailOk body pickIdx config pay recordBlocks now pool).pool) := by
  obtain ⟨msg, sent, hkey⟩ :
      ∃ msg sent, enterRaffle false emailOk body pickIdx config pay recordBlocks now pool =
        ⟨.paymentFailed recordBlocks msg, updateById chosen.id releaseTicket pool, sent⟩ := by
    rw [enterRaffle_alloc hv hpick, finalizePayment_eq]
    rcases hps : paymentStep config pay body (reserveTicket body now chosen) with ⟨outcome, sent⟩
    rw [hps] at hfail
    cases outcome with
    | error m =>
      exact ⟨m ++ ". Your card was not charged. Please try again.", sent, by simp⟩
    | ok resp =>
      simp only [paymentOutcomeFails] at hfail
      simp at hfail
      refine ⟨resp.resptext ++ ". Your card was not charged. Please try again.", sent, ?_⟩
      simp [hfail]
  rw [hkey]
  refine ⟨⟨msg, rfl⟩, rfl, ?_, ?_⟩
  · intro t ht hid
    rw [mem_updateById] at ht
    obtain ⟨t0, ht0, heq⟩ := ht
    subst heq
    by_cases h0 : t0.id = chosen.id
    · rw [if_pos h0]
      exact ⟨rfl, rfl, rfl, rfl, rfl⟩
    · rw [if_neg h0] at hid
      exact absurd hid h0
  · intro t ht hne
    exact mem_updateById_of_ne ht hne

/-- Witness for C1: one available ticket, valid body, CardPointe
configuration missing (the payment step throws before any network call) —
the answer is the payment-failed failure and the pool is the original with
the chosen row released. -/
theorem C1_payment_failure_releases_ticket_witness :
    (∃ msg, (enterRaffle false allTrue sampleBody 0 none (fun _ => .error "down") false 0
        [sampleTicket]).result = .paymentFailed false msg) ∧
    (enterRaffle false allTrue sampleBody 0 none (fun _ => .error "down") false 0
        [sampleTicket]).pool = updateById sampleTicket.id releaseTicket [sampleTicket] :=
  ⟨(C1_payment_failure_releases_ticket allTrue sampleBody 0 none (fun _ => .error "down")
      false 0 [sampleTicket] sampleTicket (by decide) (by decide) (by decide)).1,
   (C1_payment_failure_releases_ticket allTrue sampleBody 0 none (fun _ => .error "down")
      false 0 [sampleTicket] sampleTicket (by decide) (by decide) (by decide)).2.1⟩

/-- Claim C2: the charge-equals-number invariant — every sold ticket
records `amountPaid` equal to its own `ticketNumber` — is preserved by
every `enterRaffle` call (row ids are unique, being the primary key), and
every successful response reports `amountCharged` equal to the assigned
`ticketNumber`. -/
theorem C2_charge_equals_number (ipBlocked : Bool) (emailOk : String → Bool)
    (body : RequestBody) (pickIdx : Nat) (config : Option CardPointeConfig)
    (pay : CardPointeAuthRequest → PaymentOutcome) (recordBlocks : Bool) (now : Nat)
    (pool : List Ticket)
    (hids : (pool.map Ticket.id).Nodup) (hinv : chargeInv pool) :
    chargeInv (enterRaffle ipBlocked emailOk body pickIdx config pay recordBlocks now pool).pool ∧
    (∀ n a tid,
      (enterRaffle ipBlocked emailOk body pickIdx config pay recordBlocks now pool).result
          = .success n a tid → a = n) := by
  cases ipBlocked with
  | true => exact ⟨hinv, fun n a tid h => by simp [enterRaffle] at h⟩
  | false =>
    by_cases hv : enterRaffleSchemaCheck emailOk body
    · rcases hpick : pickAvailable pool pickIdx with _ | chosen
      · by_cases hc : countAvailable pool = 0
        · have he : enterRaffle false emailOk body pickIdx config pay recordBlocks now pool
              = ⟨.soldOut, pool, none⟩ := by simp [enterRaffle, hv, hc]
          rw [he]
          exact ⟨hinv, fun n a tid h => by simp at h⟩
        · have he : enterRaffle false emailOk body pickIdx config pay recordBlocks now pool
              = ⟨.allocationFailed, pool, none⟩ := by simp [enterRaffle, hv, hc, hpick]
          rw [he]
          exact ⟨hinv, fun n a tid h => by simp at h⟩
      · have hchosen := (pickAvailable_mem hpick).1
        rw [enterRaffle_alloc hv hpick, finalizePayment_eq]
        rcases hps : paymentStep config pay body (reserveTicket body now chosen) with ⟨outcome, sent⟩
        cases outcome with
        | error m =>
          simp only [hps]
          refine ⟨?_, fun n a tid h => by simp at h⟩
          unfold chargeInv
          intro t ht hsold
          rw [mem_updateById] at ht
          obtain ⟨t0, ht0, heq⟩ := ht
          subst heq
          by_cases h0 : t0.id = chosen.id
          · rw [if_pos h0] at hsold
            simp [releaseTicket] at hsold
          · rw [if_neg h0] at hsold ⊢
            exact hinv t0 ht0 hsold
        | ok resp =>
          simp only [hps]
          by_cases happ : isTransactionApproved resp
          · rw [if_pos happ]
            constructor
            · unfold chargeInv
              intro t ht hsold
              rw [mem_updateById] at ht
              obtain ⟨t0, ht0, heq⟩ := ht
              subst heq
              by_cases h0 : t0.id = chosen.id
              · rw [if_pos h0]
                have ht0c : t0 = chosen := List.inj_on_of_nodup_map hids ht0 hchosen h0
                subst ht0c
                rfl
              · rw [if_neg h0] at hsold ⊢
                exact hinv t0 ht0 hsold
            · intro n a tid h
              simp at h
              rw [← h.1, ← h.2.1]
          · rw [if_neg happ]
            refine ⟨?_, fun n a tid h => by simp at h⟩
            unfold chargeInv
            intro t ht hsold
            rw [mem_updateById] at ht
            obtain ⟨t0, ht0, heq⟩ := ht
            subst heq
            by_cases h0 : t0.id = chosen.id
            · rw [if_pos h0] at hsold
              simp [releaseTicket] at hsold
            · rw [if_neg h0] at hsold ⊢
              exact hinv t0 ht0 hsold
    · have he : enterRaffle false emailOk body pickIdx config pay recordBlocks now pool
          = ⟨.validationError "Validation error", pool, none⟩ := by simp [enterRaffle, hv]
      rw [he]
      exact ⟨hinv, fun n a tid h => by simp at h⟩

/-- Witness for C2: a one-ticket pool with an approved payment — the
invariant holds afterwards and the success response repeats the assigned
number as the amount. -/
theorem C2_charge_equals_number_witness :
    chargeInv (enterRaffle false allTrue sampleBody 0 (some ⟨"merch"⟩)
        (fun _ => .ok ⟨"A", "RR1", "Approval"⟩) false 0 [sampleTicket]).pool :=
  (C2_charge_equals_number false allTrue sampleBody 0 (some ⟨"merch"⟩)
    (fun _ => .ok ⟨"A", "RR1", "Approval"⟩) false 0 [sampleTicket]
    (by decide) (by unfold chargeInv; decide)).1

lemma finalizePayment_sentRequest (body : RequestBody) (cfg : CardPointeConfig)
    (pay : CardPointeAuthRequest → PaymentOutcome) (recordBlocks : Bool) (now : Nat)
    (chosen : Ticket) (pool : List Ticket) :
    (finalizePayment body (some cfg) pay recordBlocks now chosen pool).sentRequest =
      (paymentStep (some cfg) pay body (reserveTicket body now chosen)).2 := by
  rw [finalizePayment_eq]
  rcases hfull : paymentStep (some cfg) pay body (reserveTicket body now chosen)
    with ⟨outcome, sent⟩
  cases outcome with
  | error m => simp
  | ok resp =>
    by_cases happ : isTransactionApproved resp
    · simp [happ]
    · simp [happ]

lemma paymentStep_snd (cfg : CardPointeConfig) (pay : CardPointeAuthRequest → PaymentOutcome)
    (body : RequestBody) (assigned : Ticket) :
    (paymentStep (some cfg) pay body assigned).2 = some
      { merchid := cfg.merchantId
        account := body.cardNumber
        expiry := body.expMonth ++ body.expYear.takeRight 2
        amount := formatAmountToCents ((assigned.ticketNumber : ℚ))
        currency := "USD"
        capture := "y"
        cvv2 := body.cvv
        email := body.email
        name := body.name
        postal := body.zip } := rfl

lemma mathRound_coe_mul_100 (k : ℕ) : mathRound ((k : ℚ) * 100) = 100 * (k : ℤ) := by
  unfold mathRound
  have h1 : ((k : ℚ) * 100 + 1 / 2) = (1 / 2 : ℚ) + ((100 * (k : ℤ) : ℤ) : ℚ) := by
    push_cast
    ring
  rw [h1, Int.floor_add_int]
  norm_num

lemma formatAmountToCents_natCast (k : ℕ) :
    formatAmountToCents (k : ℚ) = toString (100 * (k : ℤ)) := by
  unfold formatAmountToCents
  rw [mathRound_coe_mul_100]

/-- Claim C9: a payment is treated as approved exactly when the response
has `respstat` equal to A; on a retry (B) or declined (C) response the
call takes the rollback path and fails, and only an A response marks the
ticket sold. -/
theorem C9_approval_is_respstat_A (emailOk : String → Bool) (body : RequestBody)
    (pickIdx : Nat) (config : Option CardPointeConfig)
    (pay : CardPointeAuthRequest → PaymentOutcome) (recordBlocks : Bool) (now : Nat)
    (pool : List Ticket) (chosen : Ticket) (resp : CardPointeAuthResponse)
    (hv : enterRaffleSchemaCheck emailOk body = true)
    (hpick : pickAvailable pool pickIdx = some chosen)
    (hresp : (paymentStep config pay body (reserveTicket body now chosen)).1 = .ok resp) :
    (∀ r : CardPointeAuthResponse, isTransactionApproved r = true ↔ r.respstat = "A") ∧
    (resp.respstat = "B" ∨ resp.respstat = "C" →
      (∃ msg, (enterRaffle false emailOk body pickIdx config pay recordBlocks now pool).result
          = .paymentFailed recordBlocks msg) ∧
      (enterRaffle false emailOk body pickIdx config pay recordBlocks now pool).pool
          = updateById chosen.id releaseTicket pool) ∧
    (resp.respstat = "A" →
      (enterRaffle false emailOk body pickIdx config pay recordBlocks now pool).result
          = .success chosen.ticketNumber chosen.ticketNumber resp.retref ∧
      (enterRaffle false emailOk body pickIdx config pay recordBlocks now pool).pool
          = updateById chosen.id (soldUpdate body now chosen.ticketNumber resp.retref) pool) := by
  refine ⟨fun r => by simp [isTransactionApproved], ?_, ?_⟩
  · intro hbc
    have hne : ¬ isTransactionApproved resp = true := by
      rcases hbc with h | h <;> simp [isTransactionApproved, h]
    rw [enterRaffle_alloc hv hpick, finalizePayment_eq]
    rcases hfull : paymentStep config pay body (reserveTicket body now chosen)
      with ⟨outcome, sent⟩
    rw [hfull] at hresp
    simp at hresp
    subst hresp
    simp only [hfull]
    rw [if_neg hne]
    exact ⟨⟨_, rfl⟩, rfl⟩
  · intro hA
    have happ : isTransactionApproved resp = true := by
      simp [isTransactionApproved, hA]
    rw [enterRaffle_alloc hv hpick, finalizePayment_eq]
    rcases hfull : paymentStep config pay body (reserveTicket body now chosen)
      with ⟨outcome, sent⟩
    rw [hfull] at hresp
    simp at hresp
    subst hresp
    simp only [hfull]
    rw [if_pos happ]
    exact ⟨rfl, rfl⟩

/-- Witness for C9: a declined response (`respstat` C) on a one-ticket
pool takes the rollback path and answers the payment-failed failure. -/
theorem C9_approval_is_respstat_A_witness :
    (∃ msg, (enterRaffle false allTrue sampleBody 0 (some ⟨"merch"⟩)
        (fun _ => .ok ⟨"C", "RR2", "Declined"⟩) false 0 [sampleTicket]).result
        = .paymentFailed false msg) ∧
    (enterRaffle false allTrue sampleBody 0 (some ⟨"merch"⟩)
        (fun _ => .ok ⟨"C", "RR2", "Declined"⟩) false 0 [sampleTicket]).pool
        = updateById sampleTicket.id releaseTicket [sampleTicket] :=
  (C9_approval_is_respstat_A allTrue sampleBody 0 (some ⟨"merch"⟩)
    (fun _ => .ok ⟨"C", "RR2", "Declined"⟩) false 0 [sampleTicket] sampleTicket
    ⟨"C", "RR2", "Declined"⟩ (by decide) (by decide) rfl).2.1 (Or.inr rfl)

/-- Claim C10: the amount handed to the payment capability for a reserved
ticket numbered k is the string representation of `Math.round(k * 100)`,
which equals 100 * k — the ticket number in cents. -/
theorem C10_amount_is_number_in_cents (emailOk : String → Bool) (body : RequestBody)
    (pickIdx : Nat) (cfg : CardPointeConfig) (pay : CardPointeAuthRequest → PaymentOutcome)
    (recordBlocks : Bool) (now : Nat) (pool : List Ticket) (chosen : Ticket)
    (hv : enterRaffleSchemaCheck emailOk body = true)
    (hpick : pickAvailable pool pickIdx = some chosen) :
    (∃ req, (enterRaffle false emailOk body pickIdx (some cfg) pay recordBlocks now pool).sentRequest
        = some req ∧
      req.amount = formatAmountToCents ((chosen.ticketNumber : ℚ)) ∧
      req.amount = toString (100 * (chosen.ticketNumber : ℤ))) ∧
    (∀ k : ℕ, mathRound ((k : ℚ) * 100) = 100 * (k : ℤ)) := by
  constructor
  · refine ⟨{ merchid := cfg.merchantId
              account := body.cardNumber
              expiry := body.expMonth ++ body.expYear.takeRight 2
              amount := formatAmountToCents ((chosen.ticketNumber : ℚ))
              currency := "USD"
              capture := "y"
              cvv2 := body.cvv
              email := body.email
              name := body.name
              postal := body.zip }, ?_, rfl, formatAmountToCents_natCast chosen.ticketNumber⟩
    rw [enterRaffle_alloc hv hpick, finalizePayment_sentRequest, paymentStep_snd]
    rfl
  · exact fun k => mathRound_coe_mul_100 k

/-- Witness for C10: for the concrete ticket numbered 1 the request sent
to the capability carries amount `Math.round(1 * 100).toString()`,
i.e. the string for 100 cents. -/
theorem C10_amount_is_number_in_cents_witness :
    ∃ req, (enterRaffle false allTrue sampleBody 0 (some ⟨"merch"⟩)
        (fun _ => .ok ⟨"A", "RR1", "Approval"⟩) false 0 [sampleTicket]).sentRequest
        = some req ∧
      req.amount = formatAmountToCents ((sampleTicket.ticketNumber : ℚ)) ∧
      req.amount = toString (100 * (sampleTicket.ticketNumber : ℤ)) :=
  (C10_amount_is_number_in_cents allTrue sampleBody 0 ⟨"merch"⟩
    (fun _ => .ok ⟨"A", "RR1", "Approval"⟩) false 0 [sampleTicket] sampleTicket
    (by decide) (by decide)).1
